import Mathlib

/-!
Verification development for `solaris/tile/vector_tile.py`.

The module is a thin layer over an external geometry library (shapely) and an
external tabular collection type (geopandas GeoDataFrame).  We embed:

* geometry values as exact-rational axis-aligned data (`Geom`): rectangular
  polygons, horizontal line segments and the empty geometry-collection
  artifact.  Area, length, bounds, `intersects` and `intersection` follow the
  behaviour of the geometry library on these values (closed-interval overlap
  for `intersects`; `intersection` returns a possibly empty geometry of the
  lower dimension, as shapely 2 does);
* a GeoDataFrame as a geometry-plus-attribute-columns row table (`Row`,
  `GeoDataFrame`), with pandas column assignment, boolean-mask row filtering
  and the frame-level `"col" in gdf.columns` test;
* the four functions of `vector_tile.py` (`search_gdf_bounds`,
  `search_gdf_polygon`, `vector_tile_utm`, `clip_gdf`) line by line, keeping
  their quirks: the `box(tile_bounds)` call that passes the whole 4-tuple as
  the first positional argument of `box`, and the two `"geom_type" ==
  "LineString"` tests that compare a string literal and are therefore always
  false;
* the in-place column mutation performed by `clip_gdf` on its caller's frame
  (`clip_gdf_eff`), as explicit state passing.

Floating point is modelled by `ℚ`; Lean's `x / 0 = 0` convention stands in
for the IEEE `NaN` produced by `0.0 / 0.0` (both compare false under `<`).
-/

namespace VectorTile

/-- Geometry values: axis-aligned rectangular polygons `poly w s e n`
(empty when `w ≥ e` or `s ≥ n`, mirroring `POLYGON EMPTY`), horizontal line
segments `line x1 x2 y` (empty when `x1 = x2`, mirroring `LINESTRING EMPTY`),
and the empty geometry-collection artifact `gcoll`
(`GEOMETRYCOLLECTION EMPTY`). -/
inductive Geom where
  | poly (w s e n : ℚ)
  | line (x1 x2 y : ℚ)
  | gcoll
deriving DecidableEq, Repr

/-- `.area`: rectangle area for polygons, `0` for lines and collections. -/
def Geom.area : Geom → ℚ
  | .poly w s e n => max 0 (e - w) * max 0 (n - s)
  | .line _ _ _ => 0
  | .gcoll => 0

/-- `.length`: perimeter for (nonempty) polygons, segment length for lines. -/
def Geom.length : Geom → ℚ
  | .poly w s e n => if w < e ∧ s < n then 2 * ((e - w) + (n - s)) else 0
  | .line x1 x2 _ => max x1 x2 - min x1 x2
  | .gcoll => 0

/-- `.geom_type` of geopandas / shapely. -/
def Geom.geomType : Geom → String
  | .poly _ _ _ _ => "Polygon"
  | .line _ _ _ => "LineString"
  | .gcoll => "GeometryCollection"

/-- An axis-aligned bounding box, `(minx, miny, maxx, maxy)`. -/
structure Box4 where
  w : ℚ
  s : ℚ
  e : ℚ
  n : ℚ
deriving DecidableEq, Repr

/-- `.bounds` of a geometry.  The empty collection is not indexed by the
spatial index; we give it an inverted box that overlaps nothing. -/
def Geom.bounds : Geom → Box4
  | .poly w s e n => ⟨w, s, e, n⟩
  | .line x1 x2 y => ⟨min x1 x2, y, max x1 x2, y⟩
  | .gcoll => ⟨0, 0, -1, -1⟩

/-- Closed-interval overlap of two bounding boxes (the spatial index's
bounding-box range query predicate). -/
def boxOverlap (a b : Box4) : Bool :=
  decide (max a.w b.w ≤ min a.e b.e ∧ max a.s b.s ≤ min a.n b.n)

/-- shapely `.intersects` (touching counts). -/
def Geom.intersects : Geom → Geom → Bool
  | .poly w s e n, .poly w2 s2 e2 n2 =>
      decide (max w w2 ≤ min e e2 ∧ max s s2 ≤ min n n2)
  | .poly w s e n, .line x1 x2 y =>
      decide (max w (min x1 x2) ≤ min e (max x1 x2) ∧ s ≤ y ∧ y ≤ n)
  | .line x1 x2 y, .poly w s e n =>
      decide (max (min x1 x2) w ≤ min (max x1 x2) e ∧ s ≤ y ∧ y ≤ n)
  | .line x1 x2 y, .line x3 x4 y2 =>
      decide (max (min x1 x2) (min x3 x4) ≤ min (max x1 x2) (max x3 x4) ∧ y = y2)
  | .gcoll, _ => false
  | _, .gcoll => false

/-- shapely `.intersection`.  Disjoint inputs yield an empty geometry of the
lower dimension (`POLYGON EMPTY` is the inverted rectangle, `LINESTRING
EMPTY` the degenerate segment `line 0 0 y`), as in shapely 2. -/
def Geom.intersection : Geom → Geom → Geom
  | .poly w s e n, .poly w2 s2 e2 n2 =>
      .poly (max w w2) (max s s2) (min e e2) (min n n2)
  | .poly w s e n, .line x1 x2 y =>
      if s ≤ y ∧ y ≤ n ∧ max w (min x1 x2) ≤ min e (max x1 x2) then
        .line (max w (min x1 x2)) (min e (max x1 x2)) y
      else .line 0 0 y
  | .line x1 x2 y, .poly w s e n =>
      if s ≤ y ∧ y ≤ n ∧ max (min x1 x2) w ≤ min (max x1 x2) e then
        .line (max (min x1 x2) w) (min (max x1 x2) e) y
      else .line 0 0 y
  | .line x1 x2 y, .line x3 x4 y2 =>
      if y = y2 ∧ max (min x1 x2) (min x3 x4) ≤ min (max x1 x2) (max x3 x4) then
        .line (max (min x1 x2) (min x3 x4)) (min (max x1 x2) (max x3 x4)) y
      else .line 0 0 y
  | .gcoll, _ => .gcoll
  | _, .gcoll => .gcoll

/-- Candidate test of `sindex.intersection(query.bounds)`: bounding boxes
overlap. -/
def sindexCandidate (g q : Geom) : Bool :=
  boxOverlap g.bounds q.bounds

/-- Attribute lookup in a row's column/value association list (a missing
column reads as `0`; the embedded code only reads columns it has set). -/
def getA : List (String × ℚ) → String → ℚ
  | [], _ => 0
  | (k, v) :: rest, c => if k = c then v else getA rest c

/-- Attribute update: replace the value of an existing column, or append the
column at the end (pandas column assignment). -/
def setA : List (String × ℚ) → String → ℚ → List (String × ℚ)
  | [], c, v => [(c, v)]
  | (k, w) :: rest, c, v =>
      if k = c then (c, v) :: rest else (k, w) :: setA rest c v

/-- One record of a GeoDataFrame: a geometry plus attribute columns. -/
structure Row where
  geom : Geom
  attrs : List (String × ℚ)
deriving DecidableEq, Repr

def Row.getAttr (r : Row) (c : String) : ℚ := getA r.attrs c

def Row.setAttr (r : Row) (c : String) (v : ℚ) : Row :=
  { r with attrs := setA r.attrs c v }

/-- A GeoDataFrame: the list of attribute column names (the geometry column
is structural) and the ordered rows. -/
structure GeoDataFrame where
  cols : List String
  rows : List Row
deriving DecidableEq, Repr

/-- `c in gdf.columns`. -/
def GeoDataFrame.hasCol (gdf : GeoDataFrame) (c : String) : Bool :=
  decide (c ∈ gdf.cols)

/-- `gdf[c] = <series computed row-wise>`: sets a column from each row,
registering the column name when it is new. -/
def GeoDataFrame.setCol (gdf : GeoDataFrame) (c : String) (f : Row → ℚ) :
    GeoDataFrame :=
  { cols := if gdf.hasCol c then gdf.cols else gdf.cols ++ [c]
    rows := gdf.rows.map fun r => r.setAttr c (f r) }

/-- Boolean-mask row subsetting `gdf[mask]` / `gdf.loc[mask, :]` where the
mask is computed row-wise from the same frame. -/
def GeoDataFrame.filterRows (gdf : GeoDataFrame) (p : Row → Bool) :
    GeoDataFrame :=
  { cols := gdf.cols, rows := gdf.rows.filter p }

/-- `gdf.geometry = <series computed row-wise>`. -/
def GeoDataFrame.setGeometry (gdf : GeoDataFrame) (f : Row → Geom) :
    GeoDataFrame :=
  { gdf with rows := gdf.rows.map fun r => { r with geom := f r } }

/-- A Python value at the `box(...)` call sites: shapely's `box` takes four
numeric coordinates, so we record each positional argument as either one
number or one tuple. -/
inductive PyVal where
  | num (q : ℚ)
  | tup (t : List ℚ)
deriving DecidableEq, Repr

/-- `shapely.geometry.box` applied to a list of positional arguments.  Four
numbers build the rectangle `box(minx, miny, maxx, maxy)`; any other
argument list raises `TypeError`, modelled as `none`. -/
def boxPy (args : List PyVal) : Option Geom :=
  match args with
  | [.num minx, .num miny, .num maxx, .num maxy] => some (.poly minx miny maxx maxy)
  | _ => none

/-- `search_gdf_polygon(gdf, tile_polygon)` (source lines 29-56): spatial
index candidate query by bounding box, `iloc` of the candidates, exact
`.intersects` refinement, and replacement of an empty result by
`gpd.GeoDataFrame(geometry=[])` (a frame with no attribute columns and no
rows, geometry column present). -/
def search_gdf_polygon (gdf : GeoDataFrame) (tile_polygon : Geom) :
    GeoDataFrame :=
  let possible_matches := gdf.filterRows fun r => sindexCandidate r.geom tile_polygon
  let precise_matches := possible_matches.filterRows fun r => r.geom.intersects tile_polygon
  if precise_matches.rows.isEmpty then ⟨[], []⟩ else precise_matches

/-- `search_gdf_bounds(gdf, tile_bounds)` (source lines 5-26).  The source
calls `box(tile_bounds)`, passing the whole 4-tuple as the single first
positional argument of `box` (line 22); `box` then raises `TypeError`,
modelled by `boxPy` returning `none`. -/
def search_gdf_bounds (gdf : GeoDataFrame) (tile_bounds : ℚ × ℚ × ℚ × ℚ) :
    Option GeoDataFrame :=
  (boxPy [.tup [tile_bounds.1, tile_bounds.2.1, tile_bounds.2.2.1, tile_bounds.2.2.2]]).map
    fun tile_polygon => search_gdf_polygon gdf tile_polygon

/-- The baseline-column block of `clip_gdf` (source lines 144-157).  The two
inner tests compare the string literal `"geom_type"` (not the parameter
`geom_type`) with `"LineString"`, so both are always false and the
polygon-mode branches always run. -/
def addBaselines (gdf : GeoDataFrame) : GeoDataFrame :=
  let g1 :=
    if gdf.hasCol ("origarea") then gdf
    else if ("geom_type" : String) = "LineString" then
      gdf.setCol ("origarea") fun _ => 0
    else
      gdf.setCol ("origarea") fun r => r.geom.area
  if g1.hasCol ("origlen") then g1
  else if ("geom_type" : String) = "LineString" then
    g1.setCol ("origlen") fun r => r.geom.length
  else
    g1.setCol ("origlen") fun _ => 0

/-- The clip-and-measure block of `clip_gdf` (source lines 160-173):
`cutGeoDF = gdf.copy()`, geometry replaced by the intersection, then either
the polygon branch (`partialDec` ratio, strict `min_partial_perc` filter,
`truncated` flag) or the linestring branch (drop `GeometryCollection` rows,
constant `partialDec = 1`, `truncated = 0`). -/
def clipStep (gdf : GeoDataFrame) (poly_to_cut : Geom) (minPartialPerc : ℚ)
    (geom_type : String) : GeoDataFrame :=
  let cutGeoDF := gdf.setGeometry fun r => r.geom.intersection poly_to_cut
  if geom_type = "Polygon" then
    let c1 := cutGeoDF.setCol ("partialDec") fun r =>
      r.geom.area / r.getAttr ("origarea")
    let c2 := c1.filterRows fun r =>
      decide (r.getAttr ("partialDec") > minPartialPerc)
    c2.setCol ("truncated") fun r =>
      if r.getAttr ("partialDec") ≠ 1 then 1 else 0
  else
    let c1 := cutGeoDF.filterRows fun r =>
      decide (r.geom.geomType ≠ "GeometryCollection")
    let c2 := c1.setCol ("partialDec") fun _ => 1
    c2.setCol ("truncated") fun _ => 0

/-- `clip_gdf(gdf, poly_to_cut, min_partial_perc, geom_type, use_sindex)`
(source lines 93-173): optional `search_gdf_polygon` narrowing, baseline
columns, clip and measure. -/
def clip_gdf (gdf : GeoDataFrame) (poly_to_cut : Geom) (minPartialPerc : ℚ)
    (geom_type : String) (use_sindex : Bool) : GeoDataFrame :=
  let gdf := if use_sindex then search_gdf_polygon gdf poly_to_cut else gdf
  clipStep (addBaselines gdf) poly_to_cut minPartialPerc geom_type

/-- State-passing embedding of `clip_gdf`'s effect on the caller's frame.
With `use_sindex=True` the local name `gdf` is rebound to the fresh frame
returned by `search_gdf_polygon` before any column assignment, so the
caller's frame is untouched.  With `use_sindex=False` the local name still
aliases the caller's frame when the baseline columns are assigned (source
lines 145-157, before `gdf.copy()` on line 160), so those assignments mutate
the caller's frame in place.  Returns (result, caller's frame after the
call). -/
def clip_gdf_eff (gdf : GeoDataFrame) (poly_to_cut : Geom)
    (minPartialPerc : ℚ) (geom_type : String) (use_sindex : Bool) :
    GeoDataFrame × GeoDataFrame :=
  if use_sindex then
    (clip_gdf gdf poly_to_cut minPartialPerc geom_type true, gdf)
  else
    (clip_gdf gdf poly_to_cut minPartialPerc geom_type false, addBaselines gdf)

/-- `vector_tile_utm(gdf, tile_bounds, min_partial_perc, geom_type,
use_sindex)` (source lines 59-90).  Here the call `box(*tile_bounds)` (line
84) unpacks the tuple into four numeric arguments, building the rectangle.
The `use_sindex` parameter is accepted but not forwarded to `clip_gdf`
(call on lines 85-88), which therefore runs with its own default
`use_sindex=True`. -/
def vector_tile_utm (gdf : GeoDataFrame) (tile_bounds : ℚ × ℚ × ℚ × ℚ)
    (minPartialPerc : ℚ) (geom_type : String) (use_sindex : Bool) :
    GeoDataFrame :=
  let tile_polygon :=
    Geom.poly tile_bounds.1 tile_bounds.2.1 tile_bounds.2.2.1 tile_bounds.2.2.2
  clip_gdf gdf tile_polygon minPartialPerc geom_type true

/-- The row-level effect of the baseline block: given the frame-level flags
"origarea column present" / "origlen column present", add the missing
baseline columns of one row exactly as `addBaselines` does. -/
def blRow (hOA hOL : Bool) (r : Row) : Row :=
  let r1 := if hOA then r else r.setAttr ("origarea") r.geom.area
  if hOL then r1 else r1.setAttr ("origlen") 0

/-- The row-level effect of polygon-mode clipping and measuring: replace the
geometry by its intersection with `p` and record `partialDec`. -/
def polyRow (p : Geom) (r : Row) : Row :=
  let r2 : Row := { r with geom := r.geom.intersection p }
  r2.setAttr ("partialDec") (r2.geom.area / r2.getAttr ("origarea"))

/-- The row-level effect of the `truncated` column assignment. -/
def truncRow (r : Row) : Row :=
  r.setAttr ("truncated") (if r.getAttr ("partialDec") ≠ 1 then 1 else 0)

/-- The measured-but-unfiltered polygon-mode frame: search narrowing,
baseline columns, clip, `partialDec` — everything `clip_gdf` does in polygon
mode with `use_sindex=True` before the `min_partial_perc` row filter and the
`truncated` column. -/
def measured (gdf : GeoDataFrame) (p : Geom) : GeoDataFrame :=
  ((addBaselines (search_gdf_polygon gdf p)).setGeometry fun r =>
      r.geom.intersection p).setCol ("partialDec") fun r =>
    r.geom.area / r.getAttr ("origarea")

/-- Fixture: one square polygon of area 100, no attribute columns. -/
def sq100 : GeoDataFrame := ⟨[], [⟨Geom.poly 0 0 10 10, []⟩]⟩

/-- Fixture: one horizontal segment of length 5 at height 0. -/
def lineG : GeoDataFrame := ⟨[], [⟨Geom.line 0 5 0, []⟩]⟩

/-- Fixture: one horizontal segment lying entirely outside the unit square. -/
def lineFar : GeoDataFrame := ⟨[], [⟨Geom.line 5 6 5, []⟩]⟩

/-- Fixture: one square of area 100 carrying a pre-seeded `origarea` column
with value 1/2 (as an upstream producer or a previous clipping chain could
leave behind). -/
def seededGdf : GeoDataFrame :=
  ⟨["origarea"], [⟨Geom.poly 0 0 10 10, [("origarea", 1/2)]⟩]⟩

/-- Fixture: one unit square, no attribute columns. -/
def unitSqGdf : GeoDataFrame := ⟨[], [⟨Geom.poly 0 0 1 1, []⟩]⟩

/-- Fixture: the output row produced by clipping `sq100` to the lower half
plane rectangle. -/
def sqHalfRow : Row :=
  ⟨Geom.poly 0 0 10 5,
   [("origarea", 100), ("origlen", 0), ("partialDec", 1/2), ("truncated", 1)]⟩

/-- Fixture: a zero-row collection that still carries an attribute column. -/
def emptyAttrGdf : GeoDataFrame := ⟨["height"], []⟩

/-- Fixture: the output row produced by clipping `unitSqGdf` to a rectangle
that fully contains it. -/
def unitRow : Row :=
  ⟨Geom.poly 0 0 1 1,
   [("origarea", 1), ("origlen", 0), ("partialDec", 1), ("truncated", 0)]⟩

/-! ### Attribute-list lemmas -/

lemma getA_setA_same (l : List (String × ℚ)) (c : String) (v : ℚ) :
    getA (setA l c v) c = v := by
  induction l with
  | nil => simp [getA, setA]
  | cons kv rest ih =>
    obtain ⟨k, w⟩ := kv
    by_cases h : k = c
    · simp [getA, setA, h]
    · simp [getA, setA, h, ih]

lemma getA_setA_ne (l : List (String × ℚ)) (c c2 : String) (v : ℚ)
    (h : c2 ≠ c) : getA (setA l c v) c2 = getA l c2 := by
  induction l with
  | nil => simp [getA, setA, Ne.symm h]
  | cons kv rest ih =>
    obtain ⟨k, w⟩ := kv
    by_cases hk : k = c
    · subst hk
      simp [getA, setA, Ne.symm h]
    · simp [getA, setA, hk, ih]

lemma getAttr_setAttr_same (r : Row) (c : String) (v : ℚ) :
    (r.setAttr c v).getAttr c = v :=
  getA_setA_same r.attrs c v

lemma getAttr_setAttr_ne (r : Row) (c c2 : String) (v : ℚ) (h : c2 ≠ c) :
    (r.setAttr c v).getAttr c2 = r.getAttr c2 :=
  getA_setA_ne r.attrs c c2 v h

lemma geom_setAttr (r : Row) (c : String) (v : ℚ) :
    (r.setAttr c v).geom = r.geom := rfl

/-! ### Column-presence lemmas -/

lemma hasCol_setCol_ne (gdf : GeoDataFrame) (c c2 : String) (f : Row → ℚ)
    (h : c2 ≠ c) : (gdf.setCol c f).hasCol c2 = gdf.hasCol c2 := by
  unfold GeoDataFrame.setCol GeoDataFrame.hasCol
  split
  · rfl
  · simp [List.mem_append, h]

lemma hasCol_setCol_self (gdf : GeoDataFrame) (c : String) (f : Row → ℚ) :
    (gdf.setCol c f).hasCol c = true := by
  unfold GeoDataFrame.setCol GeoDataFrame.hasCol
  split
  · next hc => exact hc
  · simp [List.mem_append]

lemma hasCol_setCol_mono (gdf : GeoDataFrame) (c c2 : String) (f : Row → ℚ)
    (h : gdf.hasCol c2 = true) : (gdf.setCol c f).hasCol c2 = true := by
  unfold GeoDataFrame.setCol GeoDataFrame.hasCol
  unfold GeoDataFrame.hasCol at h
  split
  · exact h
  · simp only [decide_eq_true_eq] at h ⊢
    exact List.mem_append_left _ h

/-! ### Geometry lemmas -/

lemma area_nonneg (g : Geom) : 0 ≤ g.area := by
  cases g with
  | poly w s e n =>
    simpa [Geom.area] using
      mul_nonneg (le_max_left 0 (e - w)) (le_max_left 0 (n - s))
  | line x1 x2 y => simp [Geom.area]
  | gcoll => simp [Geom.area]

lemma inter_area_le (g p : Geom) : (g.intersection p).area ≤ g.area := by
  cases g with
  | poly w s e n =>
    cases p with
    | poly w2 s2 e2 n2 =>
      simp only [Geom.intersection, Geom.area]
      refine mul_le_mul (max_le_max le_rfl ?_) (max_le_max le_rfl ?_)
        (le_max_left 0 _) (le_max_left 0 _)
      · exact sub_le_sub (min_le_left _ _) (le_max_left _ _)
      · exact sub_le_sub (min_le_left _ _) (le_max_left _ _)
    | line x1 x2 y =>
      simp only [Geom.intersection]
      split <;>
        · simp only [Geom.area]
          exact mul_nonneg (le_max_left 0 _) (le_max_left 0 _)
    | gcoll =>
      simp only [Geom.intersection, Geom.area]
      exact mul_nonneg (le_max_left 0 _) (le_max_left 0 _)
  | line x1 x2 y =>
    cases p with
    | poly w s e n =>
      simp only [Geom.intersection]
      split <;> simp [Geom.area]
    | line x3 x4 y2 =>
      simp only [Geom.intersection]
      split <;> simp [Geom.area]
    | gcoll => simp [Geom.intersection, Geom.area]
  | gcoll => cases p <;> simp [Geom.intersection, Geom.area]

lemma not_intersects_area_eq_zero (g p : Geom)
    (h : g.intersects p = false) : (g.intersection p).area = 0 := by
  cases g with
  | poly w s e n =>
    cases p with
    | poly w2 s2 e2 n2 =>
      simp only [Geom.intersects, decide_eq_false_iff_not, not_and_or,
        not_le] at h
      simp only [Geom.intersection, Geom.area]
      rcases h with h | h
      · have hz : max 0 (min e e2 - max w w2) = 0 := max_eq_left (by linarith)
        rw [hz, zero_mul]
      · have hz : max 0 (min n n2 - max s s2) = 0 := max_eq_left (by linarith)
        rw [hz, mul_zero]
    | line x1 x2 y =>
      simp only [Geom.intersection]
      split <;> simp [Geom.area]
    | gcoll => simp [Geom.intersection, Geom.area]
  | line x1 x2 y =>
    cases p with
    | poly w s e n =>
      simp only [Geom.intersection]
      split <;> simp [Geom.area]
    | line x3 x4 y2 =>
      simp only [Geom.intersection]
      split <;> simp [Geom.area]
    | gcoll => simp [Geom.intersection, Geom.area]
  | gcoll => cases p <;> simp [Geom.intersection, Geom.area]

lemma intersects_imp_candidate (g p : Geom) (h : g.intersects p = true) :
    sindexCandidate g p = true := by
  cases g with
  | poly w s e n =>
    cases p with
    | poly w2 s2 e2 n2 =>
      simp only [Geom.intersects] at h
      simpa [sindexCandidate, boxOverlap, Geom.bounds] using h
    | line x1 x2 y =>
      simp only [Geom.intersects, decide_eq_true_eq] at h
      obtain ⟨h1, h2, h3⟩ := h
      simp only [sindexCandidate, boxOverlap, Geom.bounds, decide_eq_true_eq]
      exact ⟨h1, max_le (le_min (h2.trans h3) h2) (le_min h3 le_rfl)⟩
    | gcoll => simp [Geom.intersects] at h
  | line x1 x2 y =>
    cases p with
    | poly w s e n =>
      simp only [Geom.intersects, decide_eq_true_eq] at h
      obtain ⟨h1, h2, h3⟩ := h
      simp only [sindexCandidate, boxOverlap, Geom.bounds, decide_eq_true_eq]
      exact ⟨h1, max_le (le_min le_rfl h3) (le_min h2 (h2.trans h3))⟩
    | line x3 x4 y2 =>
      simp only [Geom.intersects, decide_eq_true_eq] at h
      obtain ⟨h1, h2⟩ := h
      subst h2
      simp only [sindexCandidate, boxOverlap, Geom.bounds, decide_eq_true_eq]
      exact ⟨h1, by simp⟩
    | gcoll => simp [Geom.intersects] at h
  | gcoll => cases p <;> simp [Geom.intersects] at h

/-! ### List lemmas -/

lemma filter_false_nil {q : Row → Bool} {l : List Row}
    (h : ∀ r ∈ l, q r = false) : l.filter q = [] := by
  induction l with
  | nil => rfl
  | cons a t ih =>
    rw [List.filter_cons, h a (List.mem_cons_self a t)]
    exact ih fun r hr => h r (List.mem_cons_of_mem a hr)

lemma of_filter_nil {q : Row → Bool} {l : List Row}
    (h : l.filter q = []) : ∀ r ∈ l, q r = false := by
  induction l with
  | nil => intro r hr; cases hr
  | cons a t ih =>
    rw [List.filter_cons] at h
    intro r hr
    by_cases hq : q a = true
    · rw [if_pos hq] at h
      cases h
    · rcases List.mem_cons.1 hr with hr | hr
      · subst hr
        exact Bool.eq_false_iff.2 hq
      · rw [if_neg hq] at h
        exact ih h r hr

lemma filter_filter_imp {P B : Row → Bool}
    (himp : ∀ r, P r = true → B r = true) (l : List Row) :
    (l.filter B).filter P = l.filter P := by
  induction l with
  | nil => rfl
  | cons a t ih =>
    cases hB : B a with
    | true => simp [List.filter_cons, hB, ih]
    | false =>
      have hP : P a = false := by
        cases hPc : P a
        · rfl
        · rw [himp a hPc] at hB
          cases hB
      simp [List.filter_cons, hB, hP, ih]

lemma filter_map_filter {F : Row → Row} {P K : Row → Bool}
    (h : ∀ r, P r = false → K (F r) = false) (l : List Row) :
    ((l.filter P).map F).filter K = (l.map F).filter K := by
  induction l with
  | nil => rfl
  | cons a t ih =>
    cases hP : P a
    · rw [List.filter_cons, hP, if_neg (by simp), List.map_cons,
        List.filter_cons, h a hP, if_neg (by simp), ih]
    · rw [List.filter_cons, hP, if_pos rfl, List.map_cons, List.map_cons,
        List.filter_cons, List.filter_cons, ih]

/-! ### Search lemmas -/

lemma search_gdf_polygon_rows (gdf : GeoDataFrame) (p : Geom) :
    (search_gdf_polygon gdf p).rows =
      gdf.rows.filter fun r => r.geom.intersects p := by
  unfold search_gdf_polygon
  have hsw := filter_filter_imp
    (P := fun r => r.geom.intersects p)
    (B := fun r => sindexCandidate r.geom p)
    (fun r hr => intersects_imp_candidate _ _ hr) gdf.rows
  simp only [GeoDataFrame.filterRows]
  split
  · next hemp =>
    simp only [GeoDataFrame.filterRows, List.isEmpty_iff] at hemp
    rw [hsw] at hemp
    exact hemp.symm
  · exact hsw

lemma search_gdf_polygon_cols {gdf : GeoDataFrame} {p : Geom}
    (h : (search_gdf_polygon gdf p).rows ≠ []) :
    (search_gdf_polygon gdf p).cols = gdf.cols := by
  unfold search_gdf_polygon at h ⊢
  simp only [GeoDataFrame.filterRows] at h ⊢
  split
  · next hemp =>
    rw [if_pos hemp] at h
    exact absurd rfl h
  · rfl

lemma search_gdf_polygon_hasCol_false {gdf : GeoDataFrame} {p : Geom}
    {c : String} (h : gdf.hasCol c = false) :
    (search_gdf_polygon gdf p).hasCol c = false := by
  unfold search_gdf_polygon
  simp only [GeoDataFrame.filterRows]
  split
  · simp [GeoDataFrame.hasCol]
  · exact h

/-! ### Row-pipeline lemmas -/

lemma blRow_geom (hOA hOL : Bool) (r : Row) : (blRow hOA hOL r).geom = r.geom := by
  cases hOA <;> cases hOL <;> rfl

lemma blRow_oa_true (hOL : Bool) (r : Row) :
    (blRow true hOL r).getAttr ("origarea") = r.getAttr ("origarea") := by
  cases hOL
  · exact getAttr_setAttr_ne r ("origlen") ("origarea") 0 (by decide)
  · rfl

lemma blRow_oa_false (hOL : Bool) (r : Row) :
    (blRow false hOL r).getAttr ("origarea") = r.geom.area := by
  cases hOL
  · rw [show blRow false false r
        = (r.setAttr ("origarea") r.geom.area).setAttr ("origlen") 0 from rfl,
      getAttr_setAttr_ne _ ("origlen") ("origarea") 0 (by decide),
      getAttr_setAttr_same]
  · exact getAttr_setAttr_same r ("origarea") r.geom.area

lemma polyRow_pd (p : Geom) (r : Row) :
    (polyRow p r).getAttr ("partialDec") =
      (r.geom.intersection p).area / r.getAttr ("origarea") := by
  unfold polyRow
  rw [getAttr_setAttr_same]
  rfl

lemma polyRow_geom (p : Geom) (r : Row) :
    (polyRow p r).geom = r.geom.intersection p := rfl

lemma polyRow_attr_ne (p : Geom) (r : Row) (c : String)
    (h : c ≠ "partialDec") : (polyRow p r).getAttr c = r.getAttr c := by
  unfold polyRow
  rw [getAttr_setAttr_ne _ _ _ _ h]
  rfl

lemma truncRow_geom (r : Row) : (truncRow r).geom = r.geom := rfl

lemma truncRow_attr_ne (r : Row) (c : String) (h : c ≠ "truncated") :
    (truncRow r).getAttr c = r.getAttr c := by
  unfold truncRow
  rw [getAttr_setAttr_ne _ _ _ _ h]

lemma truncRow_tr (r : Row) :
    (truncRow r).getAttr ("truncated") =
      if r.getAttr ("partialDec") ≠ 1 then 1 else 0 := by
  unfold truncRow
  rw [getAttr_setAttr_same]

/-! ### Normal forms of `addBaselines` and `clip_gdf` rows -/

lemma setCol_rows (gdf : GeoDataFrame) (c : String) (f : Row → ℚ) :
    (gdf.setCol c f).rows = gdf.rows.map fun r => r.setAttr c (f r) := rfl

lemma addBaselines_rows (gdf : GeoDataFrame) :
    (addBaselines gdf).rows =
      gdf.rows.map (blRow (gdf.hasCol ("origarea")) (gdf.hasCol ("origlen"))) := by
  have hlit : ¬ (("geom_type" : String) = "LineString") := by decide
  unfold addBaselines
  simp only [if_neg hlit]
  cases hA : gdf.hasCol ("origarea") with
  | true =>
    simp only [eq_self_iff_true, if_true]
    cases hB : gdf.hasCol ("origlen") with
    | true =>
      simp only [eq_self_iff_true, if_true]
      have hbl : blRow true true = fun r : Row => r := rfl
      rw [hbl]
      exact (List.map_id' gdf.rows).symm
    | false =>
      simp only [Bool.false_eq_true, if_false]
      have hbl : blRow true false = fun r : Row => r.setAttr ("origlen") 0 := rfl
      rw [hbl, setCol_rows]
  | false =>
    simp only [Bool.false_eq_true, if_false]
    rw [hasCol_setCol_ne gdf ("origarea") ("origlen") _ (by decide)]
    cases hB : gdf.hasCol ("origlen") with
    | true =>
      simp only [eq_self_iff_true, if_true]
      have hbl : blRow false true =
          fun r : Row => r.setAttr ("origarea") r.geom.area := rfl
      rw [hbl, setCol_rows]
    | false =>
      simp only [Bool.false_eq_true, if_false]
      have hbl : blRow false false =
          fun r : Row => (r.setAttr ("origarea") r.geom.area).setAttr ("origlen") 0 := rfl
      rw [hbl, setCol_rows, setCol_rows, List.map_map]
      rfl

lemma filterRows_rows (gdf : GeoDataFrame) (q : Row → Bool) :
    (gdf.filterRows q).rows = gdf.rows.filter q := rfl

lemma setGeometry_rows (gdf : GeoDataFrame) (f : Row → Geom) :
    (gdf.setGeometry f).rows = gdf.rows.map fun r => { r with geom := f r } := rfl

lemma clip_poly_rows_t (gdf : GeoDataFrame) (p : Geom) (m : ℚ) :
    (clip_gdf gdf p m "Polygon" true).rows =
      (((search_gdf_polygon gdf p).rows.map fun r =>
          polyRow p (blRow ((search_gdf_polygon gdf p).hasCol ("origarea"))
            ((search_gdf_polygon gdf p).hasCol ("origlen")) r)).filter fun r =>
        decide (r.getAttr ("partialDec") > m)).map truncRow := by
  unfold clip_gdf clipStep
  simp only [eq_self_iff_true, if_true, setCol_rows, filterRows_rows,
    setGeometry_rows, addBaselines_rows, List.map_map]
  rfl

lemma clip_poly_rows_f (gdf : GeoDataFrame) (p : Geom) (m : ℚ) :
    (clip_gdf gdf p m "Polygon" false).rows =
      ((gdf.rows.map fun r =>
          polyRow p (blRow (gdf.hasCol ("origarea")) (gdf.hasCol ("origlen")) r)).filter
        fun r => decide (r.getAttr ("partialDec") > m)).map truncRow := by
  unfold clip_gdf clipStep
  simp only [Bool.false_eq_true, if_false, eq_self_iff_true, if_true,
    setCol_rows, filterRows_rows, setGeometry_rows, addBaselines_rows,
    List.map_map]
  rfl

lemma measured_rows (gdf : GeoDataFrame) (p : Geom) :
    (measured gdf p).rows =
      (search_gdf_polygon gdf p).rows.map fun r =>
        polyRow p (blRow ((search_gdf_polygon gdf p).hasCol ("origarea"))
          ((search_gdf_polygon gdf p).hasCol ("origlen")) r) := by
  unfold measured
  simp only [setCol_rows, setGeometry_rows, addBaselines_rows, List.map_map]
  rfl

lemma pd_zero_of_far (p : Geom) (a b : Bool) (r : Row)
    (h : r.geom.intersects p = false) :
    (polyRow p (blRow a b r)).getAttr ("partialDec") = 0 := by
  rw [polyRow_pd, blRow_geom, not_intersects_area_eq_zero _ _ h, zero_div]

lemma K_false_of_far (p : Geom) (m : ℚ) (hm : 0 ≤ m) (a b : Bool) (r : Row)
    (h : r.geom.intersects p = false) :
    decide ((polyRow p (blRow a b r)).getAttr ("partialDec") > m) = false := by
  rw [pd_zero_of_far p a b r h]
  exact decide_eq_false (not_lt.mpr hm)

lemma pd_bounds_fresh (p : Geom) (b : Bool) (r : Row) :
    0 ≤ (polyRow p (blRow false b r)).getAttr ("partialDec") ∧
      (polyRow p (blRow false b r)).getAttr ("partialDec") ≤ 1 := by
  rw [polyRow_pd, blRow_geom, blRow_oa_false]
  constructor
  · exact div_nonneg (area_nonneg _) (area_nonneg _)
  · rcases eq_or_lt_of_le (area_nonneg r.geom) with h0 | h0
    · rw [← h0, div_zero]
      exact zero_le_one
    · exact (div_le_one h0).mpr (inter_area_le _ _)

/-! ### Column-presence facts about the clip output -/

lemma hasCol_filterRows (gdf : GeoDataFrame) (q : Row → Bool) (c : String) :
    (gdf.filterRows q).hasCol c = gdf.hasCol c := rfl

lemma hasCol_setGeometry (gdf : GeoDataFrame) (f : Row → Geom) (c : String) :
    (gdf.setGeometry f).hasCol c = gdf.hasCol c := rfl

lemma addBaselines_hasCol_oa (gdf : GeoDataFrame) :
    (addBaselines gdf).hasCol ("origarea") = true := by
  have hlit : ¬ (("geom_type" : String) = "LineString") := by decide
  unfold addBaselines
  simp only [if_neg hlit]
  cases hA : gdf.hasCol ("origarea") with
  | true =>
    simp only [eq_self_iff_true, if_true]
    split
    · exact hA
    · exact hasCol_setCol_mono _ _ _ _ hA
  | false =>
    simp only [Bool.false_eq_true, if_false]
    split
    · exact hasCol_setCol_self _ _ _
    · exact hasCol_setCol_mono _ _ _ _ (hasCol_setCol_self _ _ _)

lemma clipStep_hasCol_mono (g : GeoDataFrame) (p : Geom) (m : ℚ)
    (gt : String) (c : String) (h : g.hasCol c = true) :
    (clipStep g p m gt).hasCol c = true := by
  unfold clipStep
  split
  · refine hasCol_setCol_mono _ _ _ _ ?_
    rw [hasCol_filterRows]
    refine hasCol_setCol_mono _ _ _ _ ?_
    rw [hasCol_setGeometry]
    exact h
  · refine hasCol_setCol_mono _ _ _ _ ?_
    refine hasCol_setCol_mono _ _ _ _ ?_
    rw [hasCol_filterRows, hasCol_setGeometry]
    exact h

lemma clip_hasCol_oa (gdf : GeoDataFrame) (p : Geom) (m : ℚ) (si : Bool) :
    (clip_gdf gdf p m "Polygon" si).hasCol ("origarea") = true := by
  unfold clip_gdf
  exact clipStep_hasCol_mono _ _ _ _ _ (addBaselines_hasCol_oa _)

/-! ### The origarea column through the pipeline -/

lemma oa_chain (p : Geom) (m : ℚ) (a b : Bool) (l : List Row) (vf : Row → ℚ)
    (hv : ∀ r : Row, (polyRow p (blRow a b r)).getAttr ("origarea") = vf r) :
    List.Sublist
      ((((l.map fun r => polyRow p (blRow a b r)).filter fun r =>
          decide (r.getAttr ("partialDec") > m)).map truncRow).map fun r =>
        r.getAttr ("origarea"))
      (l.map vf) := by
  rw [List.map_map]
  have h1 : (((l.map fun r => polyRow p (blRow a b r)).filter fun r =>
        decide (r.getAttr ("partialDec") > m)).map
          ((fun r : Row => r.getAttr ("origarea")) ∘ truncRow)) =
      (((l.map fun r => polyRow p (blRow a b r)).filter fun r =>
        decide (r.getAttr ("partialDec") > m)).map fun r : Row =>
          r.getAttr ("origarea")) :=
    List.map_congr_left fun x _ => truncRow_attr_ne x _ (by decide)
  rw [h1]
  have h2 : ((l.map fun r => polyRow p (blRow a b r)).map fun r : Row =>
      r.getAttr ("origarea")) = l.map vf := by
    rw [List.map_map]
    exact List.map_congr_left fun r _ => hv r
  exact h2 ▸ List.Sublist.map _ (List.filter_sublist _)

lemma oa_value_hasCol (p : Geom) (b : Bool) (r : Row) :
    (polyRow p (blRow true b r)).getAttr ("origarea") = r.getAttr ("origarea") := by
  rw [polyRow_attr_ne _ _ _ (by decide), blRow_oa_true]

lemma oa_value_fresh (p : Geom) (b : Bool) (r : Row) :
    (polyRow p (blRow false b r)).getAttr ("origarea") = r.geom.area := by
  rw [polyRow_attr_ne _ _ _ (by decide), blRow_oa_false]

lemma clip_oa_sublist_hasCol (gdf : GeoDataFrame) (p : Geom) (m : ℚ) (si : Bool)
    (hOA : gdf.hasCol ("origarea") = true) :
    List.Sublist
      ((clip_gdf gdf p m "Polygon" si).rows.map fun r => r.getAttr ("origarea"))
      (gdf.rows.map fun r => r.getAttr ("origarea")) := by
  cases si with
  | false =>
    rw [clip_poly_rows_f, hOA]
    exact oa_chain p m true _ gdf.rows _ (oa_value_hasCol p _)
  | true =>
    by_cases hne : (search_gdf_polygon gdf p).rows = []
    · rw [clip_poly_rows_t, hne]
      simp
    · have hcols := search_gdf_polygon_cols hne
      have hOA2 : (search_gdf_polygon gdf p).hasCol ("origarea") = true := by
        unfold GeoDataFrame.hasCol
        rw [hcols]
        exact hOA
      rw [clip_poly_rows_t, hOA2, search_gdf_polygon_rows]
      refine (oa_chain p m true _ _ _ (oa_value_hasCol p _)).trans ?_
      exact List.Sublist.map _ (List.filter_sublist _)

lemma clip_oa_sublist_fresh (gdf : GeoDataFrame) (p : Geom) (m : ℚ) (si : Bool)
    (hOA : gdf.hasCol ("origarea") = false) :
    List.Sublist
      ((clip_gdf gdf p m "Polygon" si).rows.map fun r => r.getAttr ("origarea"))
      (gdf.rows.map fun r => r.geom.area) := by
  cases si with
  | false =>
    rw [clip_poly_rows_f, hOA]
    exact oa_chain p m false _ gdf.rows _ (oa_value_fresh p _)
  | true =>
    by_cases hne : (search_gdf_polygon gdf p).rows = []
    · rw [clip_poly_rows_t, hne]
      simp
    · have hcols := search_gdf_polygon_cols hne
      have hOA2 : (search_gdf_polygon gdf p).hasCol ("origarea") = false := by
        unfold GeoDataFrame.hasCol
        rw [hcols]
        exact hOA
      rw [clip_poly_rows_t, hOA2, search_gdf_polygon_rows]
      refine (oa_chain p m false _ _ _ (oa_value_fresh p _)).trans ?_
      exact List.Sublist.map _ (List.filter_sublist _)

lemma pd_bounds_mem {p : Geom} {m : ℚ} {b : Bool} {l : List Row} {r : Row}
    (hr : r ∈ ((l.map fun r => polyRow p (blRow false b r)).filter fun r =>
        decide (r.getAttr ("partialDec") > m)).map truncRow) :
    0 ≤ r.getAttr ("partialDec") ∧ r.getAttr ("partialDec") ≤ 1 := by
  rcases List.mem_map.1 hr with ⟨r1, hr1, rfl⟩
  rcases List.mem_filter.1 hr1 with ⟨hr1m, _⟩
  rcases List.mem_map.1 hr1m with ⟨r0, _, rfl⟩
  rw [truncRow_attr_ne _ _ (by decide)]
  exact pd_bounds_fresh p b r0

/-! ### Claims -/

/-- C1: the claim says `search_gdf_bounds` completes without raising on every
well-formed bounds 4-tuple and agrees with `search_gdf_polygon` on the
rectangle.  The code instead calls `box(tile_bounds)` with the whole 4-tuple
as the single positional argument of `box` (source line 22), so `box` raises
`TypeError` on every call and `search_gdf_bounds` never returns: the
embedding yields `none` for every collection and every bounds tuple,
well-formed or not.  (`vector_tile_utm` line 84 shows the intended call
`box(*tile_bounds)`.) -/
theorem C1_search_gdf_bounds_raises (gdf : GeoDataFrame) (W S E N : ℚ) :
    search_gdf_bounds gdf (W, S, E, N) = none := rfl

/-- C2: the claim says that in LineString mode fresh baselines are
`origlen` = geometry length and `origarea` = 0.  The code compares the
string literal `"geom_type"` with `"LineString"` (source lines 148 and 154),
which is always false, so `origlen` is set to 0 instead of the length: for a
segment of length 5 the output carries `origlen = 0` while the geometry
length is 5 (`origarea` is 0 only because a linestring has zero area). -/
theorem C2_linestring_origlen_not_length :
    ((clip_gdf lineG (Geom.poly 0 0 10 10) 0 "LineString" true).rows.map fun r =>
      r.getAttr ("origlen")) = [0] ∧
    (lineG.rows.map fun r => r.geom.length) = [5] ∧
    ((clip_gdf lineG (Geom.poly 0 0 10 10) 0 "LineString" true).rows.map fun r =>
      r.getAttr ("origarea")) = [0] :=
  of_decide_eq_true (by with_unfolding_all rfl)

/-- C3 (counterexample): `clip_gdf` with `use_sindex=True` and
`use_sindex=False` do not return the same logical result in LineString mode:
a segment wholly outside the clip polygon is dropped by the index path but
kept (with empty clipped geometry, `partialDec = 1`, `truncated = 0`) by the
full-scan path. -/
theorem C3_index_changes_linestring_output :
    clip_gdf lineFar (Geom.poly 0 0 1 1) 0 "LineString" true ≠
      clip_gdf lineFar (Geom.poly 0 0 1 1) 0 "LineString" false :=
  of_decide_eq_true (by with_unfolding_all rfl)

/-- C3 (amended): in Polygon mode, for every collection, clip polygon and
nonnegative `min_partial_perc`, the index path and the full-scan path of
`clip_gdf` produce the same rows: rows pruned by the index have empty
intersection, hence `partialDec = 0`, and are dropped by the strict
`> min_partial_perc` filter anyway. -/
theorem C3_polygon_index_equivalence (gdf : GeoDataFrame) (p : Geom) (m : ℚ)
    (hm : 0 ≤ m) :
    (clip_gdf gdf p m "Polygon" true).rows =
      (clip_gdf gdf p m "Polygon" false).rows := by
  rw [clip_poly_rows_t, clip_poly_rows_f]
  by_cases hne : (search_gdf_polygon gdf p).rows = []
  · rw [hne]
    have hall : ∀ r ∈ gdf.rows, r.geom.intersects p = false := by
      have hrows := search_gdf_polygon_rows gdf p
      rw [hne] at hrows
      exact of_filter_nil hrows.symm
    have hK : ∀ r ∈ gdf.rows.map fun r =>
        polyRow p (blRow (gdf.hasCol ("origarea")) (gdf.hasCol ("origlen")) r),
        (fun r : Row => decide (r.getAttr ("partialDec") > m)) r = false := by
      intro r hr
      rcases List.mem_map.1 hr with ⟨r0, hr0, rfl⟩
      exact K_false_of_far p m hm _ _ r0 (hall r0 hr0)
    rw [filter_false_nil hK]
    simp
  · have hOA2 : (search_gdf_polygon gdf p).hasCol ("origarea")
        = gdf.hasCol ("origarea") := by
      unfold GeoDataFrame.hasCol
      rw [search_gdf_polygon_cols hne]
    have hOL2 : (search_gdf_polygon gdf p).hasCol ("origlen")
        = gdf.hasCol ("origlen") := by
      unfold GeoDataFrame.hasCol
      rw [search_gdf_polygon_cols hne]
    rw [hOA2, hOL2, search_gdf_polygon_rows]
    congr 1
    exact filter_map_filter (fun r hr => K_false_of_far p m hm _ _ r hr) gdf.rows

/-- Witness for C3 (amended) at a concrete input. -/
theorem C3_polygon_index_equivalence_witness :
    (0 : ℚ) ≤ 0 ∧
    (clip_gdf sq100 (Geom.poly 0 0 10 5) 0 "Polygon" true).rows =
      (clip_gdf sq100 (Geom.poly 0 0 10 5) 0 "Polygon" false).rows :=
  ⟨le_refl 0, C3_polygon_index_equivalence sq100 (Geom.poly 0 0 10 5) 0 (le_refl 0)⟩

/-- C4: in Polygon mode the output of `clip_gdf` is exactly the measured
frame filtered by `partialDec` strictly greater than `min_partial_perc`
(with the `truncated` column appended); every output row satisfies
`partialDec > min_partial_perc`, `partialDec` = clipped area / `origarea`,
and `truncated` = 1 exactly when `partialDec ≠ 1`, else 0; and the square of
area 100 clipped to retain area 50 gets `partialDec = 1/2`, `truncated = 1`,
and is excluded at `min_partial_perc = 3/5`. -/
theorem C4_polygon_metrics :
    (∀ (gdf : GeoDataFrame) (p : Geom) (m : ℚ),
      (clip_gdf gdf p m "Polygon" true).rows =
        ((measured gdf p).rows.filter fun r =>
          decide (r.getAttr ("partialDec") > m)).map truncRow) ∧
    (∀ (gdf : GeoDataFrame) (p : Geom) (m : ℚ) (r : Row),
      r ∈ (clip_gdf gdf p m "Polygon" true).rows →
        m < r.getAttr ("partialDec") ∧
        r.getAttr ("partialDec") = r.geom.area / r.getAttr ("origarea") ∧
        r.getAttr ("truncated") =
          if r.getAttr ("partialDec") ≠ 1 then 1 else 0) ∧
    ((clip_gdf sq100 (Geom.poly 0 0 10 5) 0 "Polygon" true).rows.map fun r =>
      (r.getAttr ("partialDec"), r.getAttr ("truncated"))) = [(1/2, 1)] ∧
    (clip_gdf sq100 (Geom.poly 0 0 10 5) (3/5) "Polygon" true).rows = [] := by
  refine ⟨?_, ?_, of_decide_eq_true (by with_unfolding_all rfl),
    of_decide_eq_true (by with_unfolding_all rfl)⟩
  · intro gdf p m
    rw [clip_poly_rows_t, measured_rows]
  · intro gdf p m r hr
    rw [clip_poly_rows_t] at hr
    rcases List.mem_map.1 hr with ⟨r1, hr1, rfl⟩
    rcases List.mem_filter.1 hr1 with ⟨hr1m, hK⟩
    rcases List.mem_map.1 hr1m with ⟨r0, hr0, rfl⟩
    refine ⟨?_, ?_, ?_⟩
    · rw [truncRow_attr_ne _ _ (by decide)]
      exact of_decide_eq_true hK
    · rw [truncRow_attr_ne _ _ (by decide), truncRow_attr_ne _ _ (by decide),
        truncRow_geom, polyRow_pd, polyRow_geom, polyRow_attr_ne _ _ _ (by decide)]
    · rw [truncRow_tr, truncRow_attr_ne _ _ (by decide)]

/-- Witness for C4 at a concrete output row. -/
theorem C4_polygon_metrics_witness :
    sqHalfRow ∈ (clip_gdf sq100 (Geom.poly 0 0 10 5) 0 "Polygon" true).rows ∧
    (0 < sqHalfRow.getAttr ("partialDec") ∧
     sqHalfRow.getAttr ("partialDec") =
       sqHalfRow.geom.area / sqHalfRow.getAttr ("origarea") ∧
     sqHalfRow.getAttr ("truncated") =
       if sqHalfRow.getAttr ("partialDec") ≠ 1 then 1 else 0) :=
  ⟨of_decide_eq_true (by with_unfolding_all rfl),
   C4_polygon_metrics.2.1 sq100 (Geom.poly 0 0 10 5) 0 sqHalfRow
     (of_decide_eq_true (by with_unfolding_all rfl))⟩

/-- C5: `search_gdf_polygon` applied to the rectangle equivalent of a bounds
tuple returns a subsequence of the input rows (subset by row identity, in
the original relative order), every returned row truly intersects the
rectangle, and when any row survives all original attribute columns are
kept.  (The `search_gdf_bounds` wrapper itself never reaches this code; its
arity slip is recorded under C1.) -/
theorem C5_search_exact_order_columns (gdf : GeoDataFrame) (W S E N : ℚ) :
    List.Sublist (search_gdf_polygon gdf (Geom.poly W S E N)).rows gdf.rows ∧
    (∀ r ∈ (search_gdf_polygon gdf (Geom.poly W S E N)).rows,
      r.geom.intersects (Geom.poly W S E N) = true) ∧
    ((search_gdf_polygon gdf (Geom.poly W S E N)).rows ≠ [] →
      (search_gdf_polygon gdf (Geom.poly W S E N)).cols = gdf.cols) := by
  refine ⟨?_, ?_, fun h => search_gdf_polygon_cols h⟩
  · rw [search_gdf_polygon_rows]
    exact List.filter_sublist _
  · intro r hr
    rw [search_gdf_polygon_rows] at hr
    exact (List.mem_filter.1 hr).2

/-- Witness for C5 at a concrete collection and rectangle. -/
theorem C5_search_exact_order_columns_witness :
    (⟨Geom.poly 0 0 10 10, []⟩ : Row) ∈
      (search_gdf_polygon sq100 (Geom.poly 0 0 10 5)).rows ∧
    (⟨Geom.poly 0 0 10 10, []⟩ : Row).geom.intersects (Geom.poly 0 0 10 5) = true ∧
    (search_gdf_polygon sq100 (Geom.poly 0 0 10 5)).rows ≠ [] ∧
    (search_gdf_polygon sq100 (Geom.poly 0 0 10 5)).cols = sq100.cols :=
  ⟨of_decide_eq_true (by with_unfolding_all rfl),
   (C5_search_exact_order_columns sq100 0 0 10 5).2.1 _
     (of_decide_eq_true (by with_unfolding_all rfl)),
   of_decide_eq_true (by with_unfolding_all rfl),
   (C5_search_exact_order_columns sq100 0 0 10 5).2.2
     (of_decide_eq_true (by with_unfolding_all rfl))⟩

/-- C6: once an `origarea` column is present, `clip_gdf` passes its values
through unchanged (each surviving row keeps its input value, in order); and
for a chain of two polygon-mode clips starting from a collection without the
column, the second clip still reports baselines equal to the original
pre-any-clipping geometry areas, not the intermediate shrunk areas. -/
theorem C6_origarea_authoritative :
    (∀ (gdf : GeoDataFrame) (p : Geom) (m : ℚ) (si : Bool),
      gdf.hasCol ("origarea") = true →
        List.Sublist
          ((clip_gdf gdf p m "Polygon" si).rows.map fun r =>
            r.getAttr ("origarea"))
          (gdf.rows.map fun r => r.getAttr ("origarea"))) ∧
    (∀ (gdf : GeoDataFrame) (p1 p2 : Geom) (m1 m2 : ℚ),
      gdf.hasCol ("origarea") = false →
        List.Sublist
          ((clip_gdf (clip_gdf gdf p1 m1 "Polygon" true) p2 m2 "Polygon"
            true).rows.map fun r => r.getAttr ("origarea"))
          (gdf.rows.map fun r => r.geom.area)) := by
  refine ⟨fun gdf p m si hOA => clip_oa_sublist_hasCol gdf p m si hOA, ?_⟩
  intro gdf p1 p2 m1 m2 hOA
  refine (clip_oa_sublist_hasCol _ p2 m2 true (clip_hasCol_oa gdf p1 m1 true)).trans ?_
  exact clip_oa_sublist_fresh gdf p1 m1 true hOA

/-- Witness for C6 at a concrete pre-seeded collection. -/
theorem C6_origarea_authoritative_witness :
    seededGdf.hasCol ("origarea") = true ∧
    List.Sublist
      ((clip_gdf seededGdf (Geom.poly 0 0 10 10) 0 "Polygon" true).rows.map
        fun r => r.getAttr ("origarea"))
      (seededGdf.rows.map fun r => r.getAttr ("origarea")) :=
  ⟨of_decide_eq_true (by with_unfolding_all rfl),
   C6_origarea_authoritative.1 seededGdf (Geom.poly 0 0 10 10) 0 true
     (of_decide_eq_true (by with_unfolding_all rfl))⟩

/-- C7 (counterexample): `partialDec` is not in [0,1] for every input
collection: with a pre-seeded `origarea = 1/2` and a fully retained square
of area 100, the surviving row has `partialDec = 200`. -/
theorem C7_partialDec_exceeds_one :
    ¬ (∀ r ∈ (clip_gdf seededGdf (Geom.poly 0 0 10 10) 0 "Polygon" true).rows,
        0 ≤ r.getAttr ("partialDec") ∧ r.getAttr ("partialDec") ≤ 1) :=
  of_decide_eq_true (by with_unfolding_all rfl)

/-- C7 (amended): in Polygon mode, for every input collection that does not
already carry an `origarea` column (so baselines are computed fresh), every
output row of `clip_gdf` has `partialDec` in [0,1], for every clip polygon,
`min_partial_perc` and `use_sindex` setting. -/
theorem C7_partialDec_unit_interval (gdf : GeoDataFrame) (p : Geom) (m : ℚ)
    (si : Bool) (hOA : gdf.hasCol ("origarea") = false) :
    ∀ r ∈ (clip_gdf gdf p m "Polygon" si).rows,
      0 ≤ r.getAttr ("partialDec") ∧ r.getAttr ("partialDec") ≤ 1 := by
  intro r hr
  cases si with
  | false =>
    rw [clip_poly_rows_f, hOA] at hr
    exact pd_bounds_mem hr
  | true =>
    rw [clip_poly_rows_t, search_gdf_polygon_hasCol_false hOA] at hr
    exact pd_bounds_mem hr

/-- Witness for C7 (amended) at a concrete collection and output row. -/
theorem C7_partialDec_unit_interval_witness :
    unitSqGdf.hasCol ("origarea") = false ∧
    unitRow ∈ (clip_gdf unitSqGdf (Geom.poly 0 0 1 1) 0 "Polygon" true).rows ∧
    (0 ≤ unitRow.getAttr ("partialDec") ∧ unitRow.getAttr ("partialDec") ≤ 1) :=
  ⟨of_decide_eq_true (by with_unfolding_all rfl),
   of_decide_eq_true (by with_unfolding_all rfl),
   C7_partialDec_unit_interval unitSqGdf (Geom.poly 0 0 1 1) 0 true
     (of_decide_eq_true (by with_unfolding_all rfl)) unitRow
     (of_decide_eq_true (by with_unfolding_all rfl))⟩

/-- C8: `search_gdf_polygon` is a total function into collections (never a
null/absent result), and whenever nothing matches — in particular on an
empty input collection — it returns exactly the zero-row frame
`gpd.GeoDataFrame(geometry=[])`, whose geometry column is present (and holds
no values). -/
theorem C8_search_never_null (gdf : GeoDataFrame) (p : Geom)
    (h : ∀ r ∈ gdf.rows, r.geom.intersects p = false) :
    search_gdf_polygon gdf p = GeoDataFrame.mk [] [] := by
  unfold search_gdf_polygon
  simp only [GeoDataFrame.filterRows]
  have hnil : List.filter (fun r => r.geom.intersects p)
      (List.filter (fun r => sindexCandidate r.geom p) gdf.rows) = [] := by
    rw [filter_filter_imp (fun r hr => intersects_imp_candidate _ _ hr)]
    exact filter_false_nil h
  simp [hnil]

/-- Witness for C8 on an empty collection with an attribute column. -/
theorem C8_search_never_null_witness :
    (∀ r ∈ emptyAttrGdf.rows, r.geom.intersects (Geom.poly 0 0 1 1) = false) ∧
    search_gdf_polygon emptyAttrGdf (Geom.poly 0 0 1 1) = GeoDataFrame.mk [] [] :=
  ⟨by simp [emptyAttrGdf],
   C8_search_never_null emptyAttrGdf (Geom.poly 0 0 1 1) (by simp [emptyAttrGdf])⟩

/-- C9: the claim says `clip_gdf` never mutates the caller's collection,
including with `use_sindex=False`.  The code violates this: with
`use_sindex=False` the local name still aliases the caller's frame when the
baseline columns are assigned (source lines 145-157, before the `copy()` on
line 160), so the caller's frame acquires `origarea` and `origlen` columns
in place. -/
theorem C9_clip_gdf_mutates_caller :
    (clip_gdf_eff unitSqGdf (Geom.poly 0 0 1 1) 0 "Polygon" false).2 ≠ unitSqGdf ∧
    (clip_gdf_eff unitSqGdf (Geom.poly 0 0 1 1) 0 "Polygon" false).2.cols =
      ["origarea", "origlen"] ∧
    unitSqGdf.cols = [] ∧
    (clip_gdf_eff unitSqGdf (Geom.poly 0 0 1 1) 0 "Polygon" true).2 = unitSqGdf :=
  of_decide_eq_true (by with_unfolding_all rfl)

/-- C10: `vector_tile_utm` accepts `use_sindex` but never forwards it to
`clip_gdf` (source lines 85-88), which therefore always runs with its own
default `use_sindex=True`: the output is independent of the argument. -/
theorem C10_use_sindex_noninterference (gdf : GeoDataFrame)
    (tile_bounds : ℚ × ℚ × ℚ × ℚ) (mp : ℚ) (gt : String) (s1 s2 : Bool) :
    vector_tile_utm gdf tile_bounds mp gt s1 =
      vector_tile_utm gdf tile_bounds mp gt s2 := rfl

end VectorTile
